import Mathlib

/-!
Verification of the TreeLifeSimulation physiological/mortality engine.

The JavaScript sources are shallowly embedded over `ℝ` (JS numbers are IEEE
doubles; float rounding is out of scope, the formulas are modelled exactly over
the reals).  The seeded linear congruential generator is modelled over `ℕ`:
its arithmetic (`state * 1664525 + 1013904223` for `state < 2^32`) stays below
`2^53`, so JS doubles compute it exactly and the `ℕ` model is faithful.

Config keys `FIRE_DROUGHT_THRESHOLD`, `FIRE_HEAT_THRESHOLD`,
`WINDTHROW_WIND_THRESHOLD` and `WINDTHROW_WIND_RANGE` are read by
`applyMortalityModel` but are not defined in `js/config.js`; in JS a numeric
comparison with `undefined` is `false`.  They are therefore modelled as
`Option ℝ` fields with comparison helpers `jsLtOpt`/`jsGtOpt` that yield
`False` on `none`, and the shipped configuration sets them to `none`.
-/

open Real

/-! ### Seeded PRNG (`js/prng.js`) -/

/-- One LCG step: `state = (state * 1664525 + 1013904223) % 4294967296`
(`js/prng.js`, `random()`). -/
def prngNext (s : ℕ) : ℕ := (s * 1664525 + 1013904223) % 4294967296

/-- The value returned by one call of `random()` from internal state `s`
(the state advances to `prngNext s` and the returned value is
`state / 4294967296` for the new state). -/
noncomputable def randVal (s : ℕ) : ℝ := (prngNext s : ℝ) / 4294967296

/-- `random(min, max)` two-argument overload: `r * (max - min) + min`. -/
noncomputable def randRange (a b : ℝ) (s : ℕ) : ℝ := randVal s * (b - a) + a

/-- `randomGaussian(mean, stdDev)` (Box–Muller, consumes two draws):
`sqrt(-2 * log u1) * cos(2π u2) * stdDev + mean`. -/
noncomputable def randomGaussianVal (mean stdDev : ℝ) (s : ℕ) : ℝ :=
  Real.sqrt (-2 * Real.log (randVal s)) * Real.cos (2 * Real.pi * randVal (prngNext s))
    * stdDev + mean

/-- `randomInt(min, max)`: `Math.floor(random() * (max - min + 1)) + min`. -/
noncomputable def randomIntVal (lo hi : ℤ) (s : ℕ) : ℤ :=
  ⌊randVal s * ((hi : ℝ) - lo + 1)⌋ + lo

/-- `clamp(value, min, max) = Math.min(Math.max(value, min), max)`
(`js/prng.js`). -/
noncomputable def clampR (v lo hi : ℝ) : ℝ := min (max v lo) hi

/-- JS `x || d` for a possibly-absent numeric field: `undefined` and `0` are
falsy, any other number is returned as-is. -/
noncomputable def jsOr (x : Option ℝ) (d : ℝ) : ℝ :=
  match x with
  | none => d
  | some v => if v = 0 then d else v

/-- JS `x < y` where `y` may be `undefined` (comparison with `undefined` is
`false`). -/
def jsLtOpt (x : ℝ) (y : Option ℝ) : Prop :=
  match y with
  | none => False
  | some v => x < v

/-- JS `x > y` where `y` may be `undefined`. -/
def jsGtOpt (x : ℝ) (y : Option ℝ) : Prop :=
  match y with
  | none => False
  | some v => v < x

noncomputable instance (x : ℝ) (y : Option ℝ) : Decidable (jsLtOpt x y) := by
  unfold jsLtOpt; cases y <;> infer_instance

noncomputable instance (x : ℝ) (y : Option ℝ) : Decidable (jsGtOpt x y) := by
  unfold jsGtOpt; cases y <;> infer_instance

/-! ### Seasons and species (`js/config.js`, `js/environment.js`) -/

/-- The four season objects of `SEASONS`. -/
inductive Season where
  | SPRING | SUMMER | AUTUMN | WINTER
deriving DecidableEq, Repr

/-- Keys of the `TREE_SPECIES` database. -/
inductive SpeciesKey where
  | OAK | MAPLE | PINE | BIRCH
deriving DecidableEq, Repr

/-- The per-species fields read by the engine.  `fireResistance`,
`windthrowResistance`, `autumnLeafDrop` and `springLeafOut` are absent from
every species record in `js/config.js`, hence `Option ℝ` (read through
`jsOr` to model the JS `|| default` fallback); `evergreen` is present only on
`PINE` (JS `undefined || false` is `false`). -/
structure Species where
  maxHeight : ℝ
  maxAge : ℝ
  growthRate : ℝ
  evergreen : Bool
  fireResistance : Option ℝ
  windthrowResistance : Option ℝ
  autumnLeafDrop : Option ℝ
  springLeafOut : Option ℝ

/-- `TREE_SPECIES` from `js/config.js`. -/
def TREE_SPECIES : SpeciesKey → Species
  | .OAK => ⟨35, 500, 0.75, false, none, none, none, none⟩
  | .MAPLE => ⟨30, 300, 0.9, false, none, none, none, none⟩
  | .PINE => ⟨40, 400, 0.6, true, none, none, none, none⟩
  | .BIRCH => ⟨25, 100, 1.2, false, none, none, none, none⟩

/-- The `CONFIG` fields consulted by the mortality model and leaf system that
are either absent from `js/config.js` (the four `Option ℝ` thresholds) or
vary the behaviour of the embedded functions. -/
structure Config where
  FIRE_DROUGHT_THRESHOLD : Option ℝ
  FIRE_HEAT_THRESHOLD : Option ℝ
  WINDTHROW_WIND_THRESHOLD : Option ℝ
  WINDTHROW_WIND_RANGE : Option ℝ
  PARTICLE_FALLING_LEAVES : ℕ

/-- The shipped configuration: the fire/windthrow threshold keys are not
defined in `js/config.js`, `PARTICLE_FALLING_LEAVES = 60`. -/
def CONFIG : Config := ⟨none, none, none, none, 60⟩

/-- Season classification from `updateEnvironmentTime` (`js/environment.js`):
thresholds 90 / 180 / 270 on `dayOfYear`. -/
noncomputable def seasonForDay (d : ℝ) : Season :=
  if d < 90 then .SPRING
  else if d < 180 then .SUMMER
  else if d < 270 then .AUTUMN
  else .WINTER

/-- `getSeasonProgress(dayOfYear)` (`js/environment.js`):
`seasonLength = 365 / 4`, `seasonStart = Math.floor(dayOfYear / seasonLength) *
seasonLength`, result `(dayOfYear - seasonStart) / seasonLength`. -/
noncomputable def getSeasonProgress (d : ℝ) : ℝ :=
  (d - (⌊d / (365 / 4)⌋ : ℝ) * (365 / 4)) / (365 / 4)

/-- `getSeasonalGrowthMultiplier(season)` (`js/environment.js`). -/
noncomputable def getSeasonalGrowthMultiplier : Season → ℝ
  | .SPRING => 1.0
  | .SUMMER => 0.95
  | .AUTUMN => 0.4
  | .WINTER => 0.05

/-- A season classifier that follows the spec's words (widths 91/91/91/92,
matching the `dayStart`/`dayEnd` constants of the `SEASONS` table), for
comparison with the classifier the code actually runs (`seasonForDay`). -/
noncomputable def seasonForDaySpec (d : ℝ) : Season :=
  if d < 91 then .SPRING
  else if d < 182 then .SUMMER
  else if d < 273 then .AUTUMN
  else .WINTER

/-! ### Environment and tree state (`js/environment.js`, `js/tree.js`) -/

/-- The `environment` global: site conditions, stressor flags and derived
calendar fields. -/
structure Env where
  sunlight : ℝ
  water : ℝ
  temperature : ℝ
  soilQuality : ℝ
  windSpeed : ℝ
  humidity : ℝ
  disease : Bool
  pests : Bool
  storm : Bool
  pollution : Bool
  dayOfYear : ℝ
  year : ℤ
  season : Season
  hour : ℝ
  totalStress : ℝ
  waterAvailability : ℝ

/-- The UI-controlled slider/checkbox inputs copied into the environment by
`updateEnvironmentFromUI()` before every substep. -/
structure UIInput where
  sunlight : ℝ
  water : ℝ
  temperature : ℝ
  soilQuality : ℝ
  windSpeed : ℝ
  humidity : ℝ
  disease : Bool
  pests : Bool
  storm : Bool
  pollution : Bool

/-- `updateEnvironmentFromUI()` (`js/environment.js`): overwrite condition and
stressor fields from the UI. -/
def updateEnvironmentFromUI (u : UIInput) (e : Env) : Env :=
  { e with
    sunlight := u.sunlight, water := u.water, temperature := u.temperature,
    soilQuality := u.soilQuality, windSpeed := u.windSpeed, humidity := u.humidity,
    disease := u.disease, pests := u.pests, storm := u.storm,
    pollution := u.pollution }

/-- `updateEnvironmentTime(dt)` (`js/environment.js`): advance `dayOfYear`,
wrap the year at 365, reclassify the season with thresholds 90/180/270 and
derive the hour. -/
noncomputable def updateEnvironmentTime (dt : ℝ) (e : Env) : Env :=
  let d0 := e.dayOfYear + dt
  let d := if 365 ≤ d0 then d0 - 365 else d0
  let y := if 365 ≤ d0 then e.year + 1 else e.year
  { e with
    dayOfYear := d, year := y, season := seasonForDay d,
    hour := (d - (⌊d⌋ : ℝ)) * 24 }

/-- `tree.mortality` parameters (`js/tree.js`). -/
structure Mortality where
  enabled : Bool
  baseRatePerYear : ℝ
  senescenceStartAge : ℝ
  maxAge : ℝ
  droughtThreshold : ℝ
  heatStressTemp : ℝ
  diseaseBaseRatePerYear : ℝ
  stormFrequency : ℝ

/-- `tree.biomass` compartments (kg). -/
structure Biomass where
  total : ℝ
  trunk : ℝ
  branches : ℝ
  leaves : ℝ
  roots : ℝ
  heartwood : ℝ
  sapwood : ℝ

/-- One entry of `tree.leafDrops` (a falling-leaf particle created by
`createFallingLeaf` in `js/tree.js`); `colorIdx` stores the index drawn by
`randomChoice`. -/
structure Leaf where
  x : ℝ
  y : ℝ
  vx : ℝ
  vy : ℝ
  ax : ℝ
  rotation : ℝ
  rotationSpeed : ℝ
  size : ℝ
  colorIdx : ℤ
  opacity : ℝ
  lifetime : ℝ
  wobblePhase : ℝ
  wobbleSpeed : ℝ
  wobbleAmount : ℝ

/-- The biological fields of the `tree` global (`js/tree.js`).  The purely
visual arrays (`branches`, `leafClusters`, `rootMesh`, `barkSegments`,
`leaves`) are not represented: per the engine they are regenerated for
rendering only and never read by the biology; their RNG consumption is
abstracted by the `regen` parameter of `updateBiology`. -/
structure TreeState where
  age : ℝ
  daysSinceBirth : ℝ
  germinationDate : ℝ
  height : ℝ
  dbh : ℝ
  crownRadius : ℝ
  crownHeight : ℝ
  rootDepth : ℝ
  rootSpread : ℝ
  trunkTaper : ℝ
  leafCount : ℤ
  leafArea : ℝ
  leafSize : ℝ
  foliageOpacity : ℝ
  foliageDensity : ℝ
  chlorophyllContent : ℝ
  health : ℝ
  vigor : ℝ
  waterContent : ℝ
  nutrientLevel : ℝ
  stressLevel : ℝ
  diseaseLoad : ℝ
  biomass : Biomass
  co2Absorbed : ℝ
  o2Produced : ℝ
  waterTranspired : ℝ
  carbonStored : ℝ
  growthThisYear : ℝ
  ringsGrown : ℕ
  leafDrops : List Leaf
  dormant : Bool
  budBurst : Bool
  flowering : Bool
  leafSenescence : Bool
  species : SpeciesKey
  mortality : Mortality
  deathCause : Option String

/-! ### Mortality hazard model (`applyMortalityModel`, simulation engine) -/

/-- Storm/windthrow activity test used both for the windthrow hazard term and
for death-cause attribution:
`environment.storm && environment.windSpeed > CONFIG.WINDTHROW_WIND_THRESHOLD`. -/
def windthrowActive (cfg : Config) (e : Env) : Prop :=
  e.storm = true ∧ jsGtOpt e.windSpeed cfg.WINDTHROW_WIND_THRESHOLD

/-- Fire-risk activity test used both for the fire hazard term and for
death-cause attribution:
`water01 < CONFIG.FIRE_DROUGHT_THRESHOLD && environment.temperature > CONFIG.FIRE_HEAT_THRESHOLD`. -/
def fireActive (cfg : Config) (e : Env) : Prop :=
  jsLtOpt (clampR (e.water / 100) 0 1) cfg.FIRE_DROUGHT_THRESHOLD ∧
    jsGtOpt e.temperature cfg.FIRE_HEAT_THRESHOLD

noncomputable instance (cfg : Config) (e : Env) : Decidable (windthrowActive cfg e) := by
  unfold windthrowActive; infer_instance

noncomputable instance (cfg : Config) (e : Env) : Decidable (fireActive cfg e) := by
  unfold fireActive; infer_instance

/-- The annualized hazard rate accumulated by `applyMortalityModel` (base,
senescence, chronic stress, drought, heat, disease, storm, fire, windthrow
terms), clamped into `[0, 5]`. -/
noncomputable def hazardPerYear (cfg : Config) (e : Env) (t : TreeState) : ℝ :=
  let m := t.mortality
  let age := t.age
  let base := max 0 m.baseRatePerYear
  let senescence :=
    if m.senescenceStartAge < age then
      let span := max 1e-6 (m.maxAge - m.senescenceStartAge)
      let s := min 1 (max 0 ((age - m.senescenceStartAge) / span))
      0.02 * (s * s)
    else 0
  let stress01 := clampR (t.stressLevel / 100) 0 1
  let chronicStress := 0.03 * (stress01 * stress01)
  let water01 := clampR (e.water / 100) 0 1
  let drought :=
    if water01 < m.droughtThreshold then
      0.04 * ((m.droughtThreshold - water01) / max 1e-6 m.droughtThreshold)
    else 0
  let heat :=
    if m.heatStressTemp < e.temperature then
      0.03 * clampR ((e.temperature - m.heatStressTemp) / 20) 0 2
    else 0
  let diseaseTerm :=
    if e.disease then m.diseaseBaseRatePerYear * (1 - clampR (t.health / 100) 0 1)
    else 0
  let stormTerm :=
    if e.storm then m.stormFrequency * 0.02 * clampR (e.windSpeed / 100) 0 1
    else 0
  let species := TREE_SPECIES t.species
  let fire :=
    if fireActive cfg e then
      match cfg.FIRE_DROUGHT_THRESHOLD, cfg.FIRE_HEAT_THRESHOLD with
      | some fdt, some fht =>
        0.05 * ((fdt - water01) / fdt) * clampR ((e.temperature - fht) / 20) 0 1 *
          (1 - jsOr species.fireResistance 0.5)
      | _, _ => 0
    else 0
  let windthrow :=
    if windthrowActive cfg e then
      match cfg.WINDTHROW_WIND_THRESHOLD with
      | some wwt =>
        0.06 * clampR ((e.windSpeed - wwt) / jsOr cfg.WINDTHROW_WIND_RANGE 0) 0 1 *
          clampR (t.height / (if species.maxHeight = 0 then 40 else species.maxHeight)) 0 1 *
          (1 - jsOr species.windthrowResistance 0.5)
      | none => 0
    else 0
  clampR (base + senescence + chronicStress + drought + heat + diseaseTerm +
    stormTerm + fire + windthrow) 0 5

/-- `pDie = 1 - Math.exp(-hazardPerYear * dtYears)`: the exact
Poisson-process per-substep death probability. -/
noncomputable def perStepDeathProb (hazard dtYears : ℝ) : ℝ :=
  1 - Real.exp (-(hazard * dtYears))

/-- Death-cause attribution on a successful death test: the fixed
if/else-if chain windthrow → fire → disease → senescence → generic. -/
noncomputable def deathCauseChain (cfg : Config) (e : Env) (t : TreeState) : String :=
  if windthrowActive cfg e then "Windthrow"
  else if fireActive cfg e then "Fire"
  else if e.disease then "Disease"
  else if t.mortality.senescenceStartAge < t.age then "Old age"
  else "Mortality event"

/-- `applyMortalityModel(dtDays)` from the simulation engine, with the PRNG
state threaded explicitly.  Guards, the deterministic old-age cap, hazard
accumulation, the Poisson-process death test (one `random()` draw) and
death-cause attribution follow the source line by line.
(`Number.isFinite` checks are vacuous over `ℝ`; `m.baseRatePerYear || 0` and
similar numeric `||`-fallbacks are the identity for real-valued fields.) -/
noncomputable def applyMortalityModel (cfg : Config) (dtDays : ℝ) (e : Env)
    (t : TreeState) (rng : ℕ) : TreeState × ℕ :=
  if t.health ≤ 0 then (t, rng)
  else if t.mortality.enabled = false then (t, rng)
  else if t.mortality.maxAge ≤ t.age then
    ({ t with health := 0, deathCause := some "Old age" }, rng)
  else if dtDays / 365 ≤ 0 then (t, rng)
  else
    let pDie := perStepDeathProb (hazardPerYear cfg e t) (dtDays / 365)
    if randVal rng < pDie then
      ({ t with health := 0, deathCause := some (deathCauseChain cfg e t) },
        prngNext rng)
    else (t, prngNext rng)

/-! ### Physiology engine (simulation engine, `updateBiology` and helpers) -/

/-- `calculatePhotosynthesis(sunlight, water, soilQuality)`:
`baseRate(1.0) * (sunlight/100) * min(1, water/50) * (soilQuality/100)`. -/
noncomputable def calculatePhotosynthesis (sunlight water soilQuality : ℝ) : ℝ :=
  1.0 * (sunlight / 100) * min 1 (water / 50) * (soilQuality / 100)

/-- `calculateTotalStress()`: piecewise water/temperature/light contributions
plus flat stressor penalties, capped at 100. -/
noncomputable def calculateTotalStress (e : Env) : ℝ :=
  let waterStress :=
    if e.water < 40 then (40 - e.water) / 40 * 30
    else if 85 < e.water then (e.water - 85) / 15 * 20
    else 0
  let tempStress :=
    if e.temperature < 5 ∨ 35 < e.temperature then 20
    else if e.temperature < 12 ∨ 28 < e.temperature then 10
    else 0
  let lightStress := if e.sunlight < 30 then (30 - e.sunlight) / 30 * 15 else 0
  let stressors :=
    (if e.disease then 25 else 0) + (if e.pests then 20 else 0) +
      (if e.storm then 15 else 0) + (if e.pollution then 10 else 0)
  min 100 (waterStress + tempStress + lightStress + stressors)

/-- `calculateEvapotranspiration()`:
`max(0, T/30) * (1 + wind/100) * (1 - humidity/100) * 0.5`. -/
noncomputable def calculateEvapotranspiration (e : Env) : ℝ :=
  max 0 (e.temperature / 30) * (1 + e.windSpeed / 100) * (1 - e.humidity / 100) * 0.5

/-- `getAutumnLeafDropRate(progress)`: `Math.pow(progress, 2) * 0.8`. -/
noncomputable def getAutumnLeafDropRate (progress : ℝ) : ℝ := progress ^ (2 : ℕ) * 0.8

/-- The dormancy check of `updateBiology`:
`(!evergreen && season === WINTER) || temperature < (evergreen ? -10 : 5) ||
(!evergreen && season === AUTUMN && getSeasonProgress(dayOfYear) > 0.7)`. -/
def isDormantOf (e : Env) (t : TreeState) : Prop :=
  let sp := TREE_SPECIES t.species
  (sp.evergreen = false ∧ e.season = .WINTER) ∨
    e.temperature < (if sp.evergreen then (-10 : ℝ) else 5) ∨
    (sp.evergreen = false ∧ e.season = .AUTUMN ∧ 0.7 < getSeasonProgress e.dayOfYear)

noncomputable instance (e : Env) (t : TreeState) : Decidable (isDormantOf e t) := by
  unfold isDormantOf; infer_instance

/-- Net carbon balance of a substep: photosynthesis minus respiration
(`0.02 * 2^((T-20)/10) * biomass.total/100`). -/
noncomputable def netCarbonOf (e : Env) (t : TreeState) : ℝ :=
  calculatePhotosynthesis e.sunlight e.water e.soilQuality -
    0.02 * (2 : ℝ) ^ ((e.temperature - 20) / 10) * (t.biomass.total / 100)

/-- The net growth factor of a substep:
`isDormant ? 0 : Math.max(0, (netCarbon * 0.8 - stress * 0.3) * seasonGrowth)`. -/
noncomputable def netGrowthFactorOf (e : Env) (t : TreeState) : ℝ :=
  if isDormantOf e t then 0
  else max 0 ((netCarbonOf e t * 0.8 - calculateTotalStress e * 0.3) *
    getSeasonalGrowthMultiplier e.season)

/-- `updateFoliage(dt)`: seasonal target opacity/density, stress penalty above
40, first-order smoothing (0.08 / 0.06) and clamping to `[0, 1]`.  Returns the
new `(foliageOpacity, foliageDensity)` pair. -/
noncomputable def updateFoliage (e : Env) (speciesKey : SpeciesKey)
    (health stressLevel foliageOpacity foliageDensity : ℝ) : ℝ × ℝ :=
  let sp := TREE_SPECIES speciesKey
  let seasonProgress := getSeasonProgress e.dayOfYear
  let o := health / 100
  let d := health / 100
  let (targetO, targetD) :=
    match e.season with
    | .WINTER => if sp.evergreen then (o * 0.7, d * 0.8) else (o * 0.05, d * 0.1)
    | .AUTUMN =>
      if sp.evergreen then (o * 0.8, d * 0.85)
      else
        let dropRate := jsOr sp.autumnLeafDrop 0.5
        let autumnFade := 1 - seasonProgress ^ (1.5 : ℝ) * (1 - dropRate * 0.3)
        (o * autumnFade, d * autumnFade)
    | .SPRING =>
      let leafOutRate := if sp.evergreen then 0.8 else jsOr sp.springLeafOut 0.3
      let springGrowth := seasonProgress ^ (0.7 : ℝ) * (1 - leafOutRate) + leafOutRate
      (o * springGrowth, d * (0.4 + springGrowth * 0.6))
    | .SUMMER => (o, min 1 (d * 1.1))
  let targetO := if 40 < stressLevel then targetO * (1 - (stressLevel - 40) / 120) else targetO
  (clampR (foliageOpacity + (targetO - foliageOpacity) * 0.08) 0 1,
    clampR (foliageDensity + (targetD - foliageDensity) * 0.06) 0 1)

/-- `updateBiomass(dt, growthFactor)`: early return when the growth factor is
not positive, otherwise season-dependent allocation into the four
compartments, heartwood formation past age 10, and recomputation of the
total as the sum of trunk, branches, leaves and roots.  The caller's tree
fields that the source reads (`health`, `foliageOpacity`, `age`, season) are
passed explicitly. -/
noncomputable def updateBiomass (season : Season)
    (health foliageOpacity age dt growthFactor : ℝ) (b : Biomass) : Biomass :=
  if growthFactor ≤ 0 then b
  else
    let healthFactor := health / 100
    let allocation := growthFactor * healthFactor * dt
    let trunkAlloc : ℝ := if season = .SPRING then 0.25 else 0.35
    let branchAlloc : ℝ := 0.20
    let leafAlloc : ℝ :=
      if season = .SPRING then 0.40 else if season = .AUTUMN then 0.10 else 0.25
    let rootAlloc : ℝ := if season = .AUTUMN then 0.35 else 0.20
    let trunk := b.trunk + allocation * trunkAlloc * 10
    let branches := b.branches + allocation * branchAlloc * 5
    let leaves := b.leaves + allocation * leafAlloc * 2 * foliageOpacity
    let roots := b.roots + allocation * rootAlloc * 3
    let heartwood := if 10 < age then b.heartwood + b.sapwood * 0.001 * dt else b.heartwood
    let sapwood := if 10 < age then trunk - heartwood else trunk
    { total := trunk + branches + leaves + roots,
      trunk := trunk, branches := branches, leaves := leaves, roots := roots,
      heartwood := heartwood, sapwood := sapwood }

/-- `createFallingLeaf(x, y, season)` (`js/tree.js`): respects the
`PARTICLE_FALLING_LEAVES` capacity and pushes a particle built from ten
successive draws (the `randomChoice` color pick stores its drawn index). -/
noncomputable def createFallingLeaf (cfg : Config) (x y : ℝ) (season : Season)
    (drops : List Leaf) (s : ℕ) : List Leaf × ℕ :=
  if cfg.PARTICLE_FALLING_LEAVES ≤ drops.length then (drops, s)
  else
    let colorsLen : ℝ := if season = .AUTUMN then 5 else 3
    let vx := randRange (-1.5) 1.5 s
    let s1 := prngNext s
    let vy := randRange 0.3 1.2 s1
    let s2 := prngNext s1
    let rotation := randRange 0 (Real.pi * 2) s2
    let s3 := prngNext s2
    let rotationSpeed := randRange (-0.15) 0.15 s3
    let s4 := prngNext s3
    let size := randRange 4 14 s4
    let s5 := prngNext s4
    let colorIdx := ⌊randVal s5 * colorsLen⌋
    let s6 := prngNext s5
    let lifetime := randRange 200 400 s6
    let s7 := prngNext s6
    let wobblePhase := randRange 0 (Real.pi * 2) s7
    let s8 := prngNext s7
    let wobbleSpeed := randRange 0.05 0.15 s8
    let s9 := prngNext s8
    let wobbleAmount := randRange 0.5 2 s9
    let s10 := prngNext s9
    let leaf : Leaf :=
      { x := x, y := y, vx := vx, vy := vy, ax := 0, rotation := rotation,
        rotationSpeed := rotationSpeed, size := size, colorIdx := colorIdx,
        opacity := 1, lifetime := lifetime, wobblePhase := wobblePhase,
        wobbleSpeed := wobbleSpeed, wobbleAmount := wobbleAmount }
    (drops ++ [leaf], s10)

/-- `updateLeafDrops(dt, windSpeed)` (`js/tree.js`): per-particle wind, wobble,
gravity, position/rotation integration, fade-out, and removal of expired or
off-screen particles. -/
noncomputable def updateLeafDropsFn (dt windSpeed : ℝ) (ds : List Leaf) : List Leaf :=
  (ds.map fun leaf =>
    let ax := windSpeed * 0.1 - leaf.vx * 0.1
    let vx := leaf.vx + ax * dt
    let wobblePhase := leaf.wobblePhase + leaf.wobbleSpeed * dt
    let vx := vx + Real.sin wobblePhase * leaf.wobbleAmount * dt
    let vy := min (leaf.vy + 0.05 * dt) 2
    let lifetime := leaf.lifetime - dt
    { leaf with
      ax := ax, vx := vx, vy := vy, wobblePhase := wobblePhase,
      x := leaf.x + vx * dt, y := leaf.y + vy * dt,
      rotation := leaf.rotation + leaf.rotationSpeed * dt,
      lifetime := lifetime,
      opacity := if lifetime < 50 then lifetime / 50 else leaf.opacity }).filter
    fun leaf => if leaf.lifetime ≤ 0 ∨ 1000 < leaf.y then false else true

/-- `handleLeafDrop(dt)` (simulation engine): seasonal, stress and storm
contributions to the drop probability, one gating draw, and on success the
position draws followed by `createFallingLeaf`.  The tree fields the source
reads are passed explicitly; `rendererWidth` abstracts `renderer.width`. -/
noncomputable def handleLeafDrop (cfg : Config) (rendererWidth dt : ℝ) (e : Env)
    (stressLevel foliageOpacity height crownHeight : ℝ)
    (drops : List Leaf) (s : ℕ) : List Leaf × ℕ :=
  let seasonProgress := getSeasonProgress e.dayOfYear
  let dropProbability :=
    (if e.season = .AUTUMN then getAutumnLeafDropRate seasonProgress else 0) +
      (if 50 < stressLevel then (stressLevel - 50) / 100 * 0.3 else 0) +
      (if e.storm = true ∧ 50 < e.windSpeed then 0.4 else 0)
  let r := randVal s
  let s1 := prngNext s
  if r < dropProbability * dt * 0.15 ∧ 0.1 < foliageOpacity then
    let centerX := rendererWidth / 2
    let treeTop := 850 - height * 100
    let canopyRadius := 60 + height * 20
    let angle := randRange 0 (Real.pi * 2) s1
    let s2 := prngNext s1
    let radius := randRange 0.3 1 s2 * canopyRadius
    let s3 := prngNext s2
    let leafX := centerX + Real.cos angle * radius
    let leafY := treeTop + crownHeight * 50 + randRange (-30) 30 s3
    let s4 := prngNext s3
    createFallingLeaf cfg leafX leafY e.season drops s4
  else (drops, s1)

/-- `updateBiology(dt)` (simulation engine): the full per-substep update.
Dead-tree early return, environment time update, mortality (may terminate the
substep), photosynthesis/respiration/net carbon, stress, dormancy, net growth
factor, health/vigor/stress/disease dynamics (one Gaussian noise pair of
draws), foliage response, conditional physical growth, biomass allocation,
gas exchange, water dynamics, chlorophyll, ageing with annual rings, leaf
drop and leaf physics.  `regen` abstracts the RNG consumption of the visual
regenerators (`generateBranchArchitecture`/`generateLeafClusters`/
`generateRootMesh`) invoked every fifth ring; they write only the visual
arrays, which are not part of the modelled state.  `recordHealth` only
appends to the UI history and is not part of the tree state. -/
noncomputable def updateBiology (cfg : Config) (regen : ℕ → ℕ) (rendererWidth : ℝ)
    (dt : ℝ) (e : Env) (t : TreeState) (rng : ℕ) : Env × TreeState × ℕ :=
  if t.health ≤ 0 then
    (e, { t with leafDrops := updateLeafDropsFn dt e.windSpeed t.leafDrops }, rng)
  else
    let e1 := updateEnvironmentTime dt e
    let mres := applyMortalityModel cfg dt e1 t rng
    let tm := mres.1
    let rng1 := mres.2
    if tm.health ≤ 0 then
      (e1, { tm with leafDrops := updateLeafDropsFn dt e1.windSpeed tm.leafDrops }, rng1)
    else
      let photoRate := calculatePhotosynthesis e1.sunlight e1.water e1.soilQuality
      let stress := calculateTotalStress e1
      let e2 := { e1 with totalStress := stress, waterAvailability := e1.water }
      let isDormant := isDormantOf e2 tm
      let netGrowthFactor := netGrowthFactorOf e2 tm
      let stressImpact := stress * 20
      let recoveryRate := photoRate * 0.5 + (100 - tm.stressLevel) * 0.1
      let healthDelta := netGrowthFactor * 10 + recoveryRate * 0.5 - stressImpact
      let noise := randomGaussianVal 0 0.3 rng1
      let rng2 := prngNext (prngNext rng1)
      let health := clampR (tm.health + healthDelta * dt + noise * dt) 0 100
      let vigor := clampR (tm.vigor * 0.98 + health * netGrowthFactor * 0.02) 0 100
      let stressLevel := clampR (tm.stressLevel * 0.95 + stress * 30 * dt) 0 100
      let diseaseLoad :=
        if e2.disease then min 100 (tm.diseaseLoad + dt * 2 * (100 - health) / 100)
        else max 0 (tm.diseaseLoad - dt * 0.5)
      let fol := updateFoliage e2 tm.species health stressLevel
        tm.foliageOpacity tm.foliageDensity
      let foliageOpacity := fol.1
      let foliageDensity := fol.2
      let species := TREE_SPECIES tm.species
      let tGrow :=
        if 25 < health ∧ ¬isDormant ∧ 0 < netGrowthFactor then
          let speciesGrowthRate := if species.growthRate = 0 then 1.0 else species.growthRate
          let healthFactor := health / 100
          let vigorFactor := vigor / 100
          let ageFactor := max 0.1 (1 - tm.age / (species.maxAge * 0.4))
          let growthRate := netGrowthFactor * healthFactor * vigorFactor * ageFactor *
            speciesGrowthRate
          let heightLimit := if species.maxHeight = 0 then 40 else species.maxHeight
          let heightSaturation := (1 - tm.height / heightLimit) ^ (2 : ℕ)
          let heightGrowth := growthRate * 0.9 * heightSaturation
          let height := min heightLimit (tm.height + heightGrowth * dt)
          let expectedDBH := height ^ (0.8 : ℝ) * 0.05
          let dbhGrowth := (expectedDBH - tm.dbh) * growthRate * 0.1 +
            growthRate * 0.18 * 0.0005
          let crownRadius := height * 0.4 * healthFactor
          let rootGrowth := growthRate * 1.3 * (e2.soilQuality / 100) * 0.005
          let leafArea := crownRadius * crownRadius * Real.pi * foliageOpacity * healthFactor
          { tm with
            height := height,
            growthThisYear := tm.growthThisYear + heightGrowth * dt,
            dbh := max tm.dbh (tm.dbh + dbhGrowth * dt),
            crownRadius := crownRadius,
            crownHeight := height * 0.5 * healthFactor,
            rootDepth := min (height * 0.8) (tm.rootDepth + rootGrowth * dt),
            rootSpread := min (crownRadius * 1.5) (tm.rootSpread + rootGrowth * 0.8 * dt),
            leafArea := leafArea,
            leafCount := ⌊leafArea * 500⌋ }
        else tm
      let biomass := updateBiomass e2.season health foliageOpacity tm.age dt
        netGrowthFactor tm.biomass
      let effectiveLeafArea := tGrow.leafArea * foliageOpacity
      let co2Absorbed :=
        if ¬isDormant then
          tm.co2Absorbed + photoRate * effectiveLeafArea * 0.018 * dt / 365
        else tm.co2Absorbed
      let o2Produced :=
        if ¬isDormant then
          tm.o2Produced + photoRate * effectiveLeafArea * 0.024 * dt / 365
        else tm.o2Produced
      let carbonStored := if ¬isDormant then biomass.total * 0.5 else tm.carbonStored
      let evapotranspiration := calculateEvapotranspiration e2
      let waterUptake := (e2.water / 100) * tGrow.rootDepth * tGrow.rootSpread * 0.5
      let waterContent :=
        clampR (tm.waterContent + (waterUptake - evapotranspiration) * dt) 0 100
      let waterTranspired := tm.waterTranspired + evapotranspiration * dt
      let chlorophyllContent :=
        if species.evergreen then
          if e2.season = .WINTER then max 50 (tm.chlorophyllContent - dt * 0.5)
          else min 100 (tm.chlorophyllContent + dt * 2)
        else if e2.season = .AUTUMN then
          max 0 (100 * (1 - getSeasonProgress e2.dayOfYear))
        else if e2.season = .SPRING then
          min 100 (getSeasonProgress e2.dayOfYear * 100)
        else if e2.season = .WINTER then 0
        else min 100 (tm.chlorophyllContent + dt * 2)
      let prevYear := ⌊(tm.daysSinceBirth - dt) / 365⌋
      let age := tm.age + dt / 365
      let daysSinceBirth := tm.daysSinceBirth + dt
      let currentYear := ⌊daysSinceBirth / 365⌋
      let newRing := prevYear < currentYear
      let ringsGrown := if newRing then tm.ringsGrown + 1 else tm.ringsGrown
      let growthThisYear := if newRing then 0 else tGrow.growthThisYear
      let rng3 := if newRing ∧ ringsGrown % 5 = 0 then regen rng2 else rng2
      let ld := handleLeafDrop cfg rendererWidth dt e2 stressLevel foliageOpacity
        tGrow.height tGrow.crownHeight tm.leafDrops rng3
      let leafDrops := updateLeafDropsFn dt e2.windSpeed ld.1
      let tOut : TreeState :=
        { tGrow with
          health := health, vigor := vigor, stressLevel := stressLevel,
          diseaseLoad := diseaseLoad, foliageOpacity := foliageOpacity,
          foliageDensity := foliageDensity, chlorophyllContent := chlorophyllContent,
          dormant := if isDormant then true else false,
          biomass := biomass, co2Absorbed := co2Absorbed, o2Produced := o2Produced,
          carbonStored := carbonStored, waterContent := waterContent,
          waterTranspired := waterTranspired, age := age,
          daysSinceBirth := daysSinceBirth, ringsGrown := ringsGrown,
          growthThisYear := growthThisYear, leafDrops := leafDrops }
      (e2, tOut, ld.2)

/-! ### Fixed-timestep scheduler and full runs (`animationLoop`,
`startSimulation`) -/

/-- The combined simulation state threaded through substeps: environment,
tree and PRNG state. -/
structure SimState where
  env : Env
  tree : TreeState
  rng : ℕ

/-- One physiological substep as invoked by the scheduler's drain loop:
`updateEnvironmentFromUI(); updateBiology(substepTime)`. -/
noncomputable def substep (cfg : Config) (regen : ℕ → ℕ) (rendererWidth dt : ℝ)
    (u : UIInput) (s : SimState) : SimState :=
  let e := updateEnvironmentFromUI u s.env
  let r := updateBiology cfg regen rendererWidth dt e s.tree s.rng
  ⟨r.1, r.2.1, r.2.2⟩

/-- The bounded drain loop of `animationLoop`:
`while (acc >= substepTime && substeps < maxSubsteps) { step(); acc -= substepTime; }`.
`fuel` is the remaining substep budget (`maxSubsteps - substeps`), `f` the
loop body (one substep at the fixed substep size). -/
noncomputable def schedLoop {α : Type} (dt : ℝ) (f : α → α) :
    ℕ → ℝ → α → ℕ × ℝ × α
  | 0, acc, a => (0, acc, a)
  | fuel + 1, acc, a =>
    if dt ≤ acc then
      let r := schedLoop dt f fuel (acc - dt) (f a)
      (r.1 + 1, r.2.1, r.2.2)
    else (0, acc, a)

/-- One `animationLoop` invocation's physics section: add the frame's
`deltaTime` to the accumulator, then drain at most `maxSubsteps = 10`
substeps of the fixed size `dt`. -/
noncomputable def schedulerCall {α : Type} (dt : ℝ) (f : α → α) (delta acc : ℝ)
    (a : α) : ℕ × ℝ × α :=
  schedLoop dt f 10 (acc + delta) a

/-- A sequence of `animationLoop` invocations with per-frame deltas `ds`,
starting from accumulator `acc` and state `a`; returns the total number of
executed substeps, the final accumulator and the final state. -/
noncomputable def schedulerRun {α : Type} (dt : ℝ) (f : α → α) :
    List ℝ → ℝ → α → ℕ × ℝ × α
  | [], acc, a => (0, acc, a)
  | d :: ds, acc, a =>
    let r := schedulerCall dt f d acc a
    let r2 := schedulerRun dt f ds r.2.1 r.2.2
    (r.1 + r2.1, r2.2.1, r2.2.2)

/-- Substeps executed after fully draining what the calls left pending in the
accumulator (the host keeps calling `animationLoop` every frame, so pending
whole substeps in the accumulator are executed by later calls). -/
noncomputable def drainedSubsteps {α : Type} (dt : ℝ) (f : α → α) (ds : List ℝ)
    (acc : ℝ) (a : α) : ℕ :=
  let r := schedulerRun dt f ds acc a
  r.1 + ⌊r.2.1 / dt⌋₊

/-- `initPRNG(seed)` (`js/prng.js`): the internal LCG state becomes the seed. -/
def initPRNG (seed : ℕ) : ℕ := seed

/-- The simulation state after `n` substeps: the run is seeded with
`initPRNG(seed)` (as in `startSimulation`) and substep `k` consumes the
`k`-th entry of the environment-input sequence `us`. -/
noncomputable def stateAfter (cfg : Config) (regen : ℕ → ℕ) (rendererWidth dt : ℝ)
    (us : ℕ → UIInput) (e0 : Env) (t0 : TreeState) (seed : ℕ) : ℕ → SimState
  | 0 => ⟨e0, t0, initPRNG seed⟩
  | n + 1 =>
    substep cfg regen rendererWidth dt (us n)
      (stateAfter cfg regen rendererWidth dt us e0 t0 seed n)

/-- The trajectory of a run of `n` substeps: the list of simulation states
after 1, 2, …, `n` substeps. -/
noncomputable def simTrajectory (cfg : Config) (regen : ℕ → ℕ) (rendererWidth dt : ℝ)
    (us : ℕ → UIInput) (e0 : Env) (t0 : TreeState) (seed : ℕ) (n : ℕ) :
    List SimState :=
  (List.range n).map fun k => stateAfter cfg regen rendererWidth dt us e0 t0 seed (k + 1)

/-! ### Initial values (`js/environment.js`, `js/tree.js`, `initializeTree`) -/

/-- The initial `environment` object literal of `js/environment.js`. -/
def defaultEnv : Env :=
  { sunlight := 70, water := 60, temperature := 20, soilQuality := 70,
    windSpeed := 30, humidity := 60, disease := false, pests := false,
    storm := false, pollution := false, dayOfYear := 0, year := 0,
    season := .SPRING, hour := 12, totalStress := 0, waterAvailability := 60 }

/-- A UI input holding the environment defaults steady. -/
def defaultUI : UIInput :=
  { sunlight := 70, water := 60, temperature := 20, soilQuality := 70,
    windSpeed := 30, humidity := 60, disease := false, pests := false,
    storm := false, pollution := false }

/-- The sapling state set by `initializeTree()` (`js/tree.js`);
`germinationDate` abstracts the `randomInt(60, 120)` draw.  The mortality
block keeps its declared defaults (`enabled: false`, `maxAge :=
CONFIG.TREE_MAX_AGE = 600`, drought threshold `0.3`, heat limit `35`,
disease rate `0.02`, storm frequency `0.05`). -/
def initTree (germinationDate : ℝ) : TreeState :=
  { age := 0, daysSinceBirth := 0, germinationDate := germinationDate,
    height := 0.25, dbh := 0.008, crownRadius := 0.25 * 0.6,
    crownHeight := 0.25 * 0.4, rootDepth := 0.25 * 0.3, rootSpread := 0.25 * 0.5,
    trunkTaper := 0.85, leafCount := 50, leafArea := 0.1, leafSize := 1.0,
    foliageOpacity := 1.0, foliageDensity := 1.0, chlorophyllContent := 100,
    health := 100, vigor := 100, waterContent := 100, nutrientLevel := 100,
    stressLevel := 0, diseaseLoad := 0,
    biomass := { total := 0.5, trunk := 0.3, branches := 0.1, leaves := 0.05,
                 roots := 0.05, heartwood := 0, sapwood := 0.3 },
    co2Absorbed := 0, o2Produced := 0, waterTranspired := 0, carbonStored := 0,
    growthThisYear := 0, ringsGrown := 0, leafDrops := [],
    dormant := false, budBurst := false, flowering := false,
    leafSenescence := false, species := .OAK,
    mortality := { enabled := false, baseRatePerYear := 0.001,
                   senescenceStartAge := 150, maxAge := 600,
                   droughtThreshold := 0.3, heatStressTemp := 35,
                   diseaseBaseRatePerYear := 0.02, stormFrequency := 0.05 },
    deathCause := none }

/-- Environment for the concrete mortality examples: disease stressor active,
ample water, mild temperature, no storm. -/
def exampleEnv : Env :=
  { defaultEnv with disease := true, water := 100, temperature := 20 }

/-- Tree for the concrete mortality examples: alive at health 80, mortality
enabled, age 5 (below the senescence start), no accumulated stress. -/
def exampleTree : TreeState :=
  { initTree 80 with
    health := 80, age := 5,
    mortality := { (initTree 80).mortality with enabled := true } }

/-! ### Shared lemmas -/

theorem prngNext_lt (s : ℕ) : prngNext s < 4294967296 :=
  Nat.mod_lt _ (by norm_num)

theorem randVal_nonneg (s : ℕ) : 0 ≤ randVal s := by
  unfold randVal; positivity

theorem randVal_lt_one (s : ℕ) : randVal s < 1 := by
  unfold randVal
  rw [div_lt_one (by norm_num)]
  exact_mod_cast prngNext_lt s

theorem clampR_le (v lo hi : ℝ) : clampR v lo hi ≤ hi := min_le_right _ _

theorem le_clampR (v lo hi : ℝ) (h : lo ≤ hi) : lo ≤ clampR v lo hi :=
  le_min (le_max_right _ _) h

theorem clampR_mem_Icc (v lo hi : ℝ) (h : lo ≤ hi) :
    clampR v lo hi ∈ Set.Icc lo hi :=
  ⟨le_clampR v lo hi h, clampR_le v lo hi⟩

theorem getSeasonProgress_eq_fract (d : ℝ) :
    getSeasonProgress d = Int.fract (d / (365 / 4)) := by
  unfold getSeasonProgress Int.fract
  field_simp
  ring

theorem getSeasonProgress_nonneg (d : ℝ) : 0 ≤ getSeasonProgress d := by
  rw [getSeasonProgress_eq_fract]; exact Int.fract_nonneg _

theorem getSeasonProgress_lt_one (d : ℝ) : getSeasonProgress d < 1 := by
  rw [getSeasonProgress_eq_fract]; exact Int.fract_lt_one _

/-! ### C10 — PRNG range invariant -/

/-- C10: for every integer seed in `[0, 2^32)`, every call of `random()`
returns a value in `[0, 1)` and leaves the internal state an integer in
`[0, 2^32)`; the bounds hold for every subsequent call.  (`n` counts the
calls already made: the `n+1`-st call returns `randVal` of the current state
`prngNext^[n] seed` and leaves state `prngNext^[n+1] seed`.) -/
theorem prng_range_invariant (seed n : ℕ) (hseed : seed < 4294967296) :
    prngNext^[n + 1] seed < 4294967296 ∧
    0 ≤ randVal (prngNext^[n] seed) ∧ randVal (prngNext^[n] seed) < 1 := by
  refine ⟨?_, randVal_nonneg _, randVal_lt_one _⟩
  rw [Function.iterate_succ_apply']
  exact prngNext_lt _

/-- Witness for C10 at seed `12345`, first call: the state stays below
`2^32` and the returned value is concrete (`87628868 / 2^32 ∈ [0, 1)`). -/
theorem prng_range_invariant_witness :
    (12345 : ℕ) < 4294967296 ∧
    prngNext^[0 + 1] 12345 < 4294967296 ∧
    0 ≤ randVal (prngNext^[0] 12345) ∧ randVal (prngNext^[0] 12345) < 1 :=
  ⟨by norm_num, prng_range_invariant 12345 0 (by norm_num)⟩

/-! ### C1 — Poisson-process death probability -/

/-- C1: for every clamped hazard `h ≥ 0` and substep length `dtDays > 0`, the
per-substep death probability of the mortality model equals
`1 − exp(−h·dtYears)` with `dtYears = dtDays/365`; it is exactly `0` when
`h = 0`; for fixed `h` it is monotone in the substep length and tends to `0`
as the substep length tends to `0`; and the hazard the code feeds into it is
always clamped into `[0, 5]`. -/
theorem mortality_prob_spec (h dtDays : ℝ) (hh : 0 ≤ h) (hdt : 0 < dtDays) :
    perStepDeathProb h (dtDays / 365) = 1 - Real.exp (-(h * (dtDays / 365))) ∧
    perStepDeathProb 0 (dtDays / 365) = 0 ∧
    (∀ d₁ d₂ : ℝ, 0 < d₁ → d₁ ≤ d₂ →
      perStepDeathProb h (d₁ / 365) ≤ perStepDeathProb h (d₂ / 365)) ∧
    Filter.Tendsto (fun d : ℝ => perStepDeathProb h (d / 365)) (nhds 0) (nhds 0) ∧
    (∀ (cfg : Config) (e : Env) (t : TreeState),
      0 ≤ hazardPerYear cfg e t ∧ hazardPerYear cfg e t ≤ 5) := by
  refine ⟨rfl, ?_, ?_, ?_, ?_⟩
  · unfold perStepDeathProb
    simp
  · intro d₁ d₂ h₁ h₁₂
    unfold perStepDeathProb
    have hm : h * (d₁ / 365) ≤ h * (d₂ / 365) := by
      apply mul_le_mul_of_nonneg_left _ hh
      linarith
    have := Real.exp_le_exp.mpr (neg_le_neg hm)
    linarith
  · have hc : Continuous fun d : ℝ => perStepDeathProb h (d / 365) := by
      unfold perStepDeathProb
      continuity
    have h0 := hc.tendsto 0
    simpa [perStepDeathProb] using h0
  · intro cfg e t
    exact ⟨le_clampR _ _ _ (by norm_num), clampR_le _ _ _⟩

/-- Witness for C1 at `h = 0`, `dtDays = 2`: the hazard-zero per-substep
probability is exactly `0`. -/
theorem mortality_prob_spec_witness :
    (0 : ℝ) ≤ 0 ∧ (0 : ℝ) < 2 ∧ perStepDeathProb 0 (2 / 365) = 0 :=
  ⟨le_refl 0, by norm_num, (mortality_prob_spec 0 2 (le_refl 0) (by norm_num)).2.1⟩

/-! ### C8 — winter dormancy of non-evergreen species -/

/-- C8: whenever the season used by the substep's dormancy check is Winter
and the tree's species is not evergreen, the dormant flag is set and the net
growth factor computed for the substep is exactly `0`, regardless of every
other environment input (`isDormantOf` and `netGrowthFactorOf` are the
definitions `updateBiology` evaluates for the substep). -/
theorem winter_dormancy_zero_growth (e : Env) (t : TreeState)
    (hseason : e.season = .WINTER)
    (hev : (TREE_SPECIES t.species).evergreen = false) :
    isDormantOf e t ∧ netGrowthFactorOf e t = 0 := by
  have hd : isDormantOf e t := Or.inl ⟨hev, hseason⟩
  refine ⟨hd, ?_⟩
  unfold netGrowthFactorOf
  rw [if_pos hd]

/-- Witness for C8: the default (oak, non-evergreen) tree in a winter
environment is dormant with net growth factor exactly `0`. -/
theorem winter_dormancy_zero_growth_witness :
    ({ defaultEnv with season := Season.WINTER } : Env).season = Season.WINTER ∧
    (TREE_SPECIES (initTree 80).species).evergreen = false ∧
    (isDormantOf { defaultEnv with season := Season.WINTER } (initTree 80) ∧
      netGrowthFactorOf { defaultEnv with season := Season.WINTER } (initTree 80) = 0) :=
  ⟨rfl, rfl, winter_dormancy_zero_growth _ _ rfl rfl⟩

/-! ### C9 — season classifier and season progress (corrected) -/

/-- C9 counterexample: the claim says the classifier partitions the year into
widths 91/91/91/92 (the `SEASONS` table's `dayStart`/`dayEnd` constants,
embedded as `seasonForDaySpec`) or an equivalent evenly-spaced quartering,
and that `getSeasonProgress` is the fractional position within that same
range.  At `dayOfYear = 90` the code's classifier already returns Summer
(its boundary is at 90, not 91 and not 365/4), while the spec's partition
still returns Spring; and `getSeasonProgress 90 = 72/73 ≠ 0` although 90 is
the first day of the code classifier's Summer range, so the progress function
is not the fractional position within the classifier's range. -/
theorem season_classifier_counterexample :
    seasonForDay 89 = Season.SPRING ∧
    seasonForDay 90 = Season.SUMMER ∧
    seasonForDaySpec 90 = Season.SPRING ∧
    Season.SUMMER ≠ Season.SPRING ∧
    getSeasonProgress 90 = 72 / 73 ∧ (72 / 73 : ℝ) ≠ 0 := by
  refine ⟨?_, ?_, ?_, by decide, ?_, by norm_num⟩
  · unfold seasonForDay
    norm_num
  · unfold seasonForDay
    norm_num
  · unfold seasonForDaySpec
    norm_num
  · rw [getSeasonProgress_eq_fract]
    rw [Int.fract_eq_self.mpr (by constructor <;> norm_num)]
    norm_num

/-- C9 (amended): the season classifier is a pure function of `dayOfYear`
partitioning the 365-day year at the fixed thresholds 90/180/270 (ranges of
widths 90/90/90/95), and `getSeasonProgress` returns the fractional position
of `dayOfYear` within the evenly-spaced `365/4`-day quarter containing it —
not within the classifier's range — always lying in `[0, 1)`. -/
theorem season_classifier_spec (d : ℝ) (h0 : 0 ≤ d) (h365 : d < 365) :
    (seasonForDay d = .SPRING ↔ d < 90) ∧
    (seasonForDay d = .SUMMER ↔ 90 ≤ d ∧ d < 180) ∧
    (seasonForDay d = .AUTUMN ↔ 180 ≤ d ∧ d < 270) ∧
    (seasonForDay d = .WINTER ↔ 270 ≤ d) ∧
    getSeasonProgress d = Int.fract (d / (365 / 4)) ∧
    0 ≤ getSeasonProgress d ∧ getSeasonProgress d < 1 := by
  refine ⟨?_, ?_, ?_, ?_, getSeasonProgress_eq_fract d, getSeasonProgress_nonneg d,
    getSeasonProgress_lt_one d⟩ <;>
    · unfold seasonForDay
      split_ifs with h1 h2 h3 <;> (try simp_all) <;> intros <;> linarith

/-- Witness for C9 (amended) at `dayOfYear = 100`: Summer, with progress
`100/91.25 - 1 = 35/365`. -/
theorem season_classifier_spec_witness :
    (0 : ℝ) ≤ 100 ∧ (100 : ℝ) < 365 ∧
    (seasonForDay 100 = .SUMMER ↔ (90 : ℝ) ≤ 100 ∧ (100 : ℝ) < 180) :=
  ⟨by norm_num, by norm_num, (season_classifier_spec 100 (by norm_num) (by norm_num)).2.1⟩

/-! ### C5 — seed determinism of trajectories -/

/-- C5: two runs of `n` substeps that are re-seeded with the same seed via
`initPRNG` and fed the identical sequence of environment inputs from the same
initial environment and tree state produce identical tree-state trajectories.
In this embedding every stochastic decision of a substep draws from the
single threaded generator in the program's fixed call order (mortality test,
Gaussian health noise, visual regeneration, leaf-drop draws), so the
trajectory is a pure function of the seed and the inputs. -/
theorem trajectory_determinism (cfg : Config) (regen : ℕ → ℕ)
    (rendererWidth dt : ℝ) (us : ℕ → UIInput) (e0 : Env) (t0 : TreeState)
    (seed₁ seed₂ : ℕ) (n : ℕ) (h : seed₁ = seed₂) :
    simTrajectory cfg regen rendererWidth dt us e0 t0 seed₁ n =
      simTrajectory cfg regen rendererWidth dt us e0 t0 seed₂ n := by
  rw [h]

/-- Witness for C5: two three-substep runs from seed `12345` with the default
environment inputs coincide. -/
theorem trajectory_determinism_witness :
    (12345 : ℕ) = 12345 ∧
    simTrajectory CONFIG id 1920 (1 / 60) (fun _ => defaultUI) defaultEnv
        (initTree 80) 12345 3 =
      simTrajectory CONFIG id 1920 (1 / 60) (fun _ => defaultUI) defaultEnv
        (initTree 80) 12345 3 :=
  ⟨rfl, trajectory_determinism CONFIG id 1920 (1 / 60) (fun _ => defaultUI)
    defaultEnv (initTree 80) 12345 12345 3 rfl⟩

/-! ### C2 — deterministic old-age death -/

/-- C2: when mortality is enabled, the tree is alive and its age has reached
the configured `maxAge`, one substep kills the tree with cause `"Old age"`
with probability 1: both `applyMortalityModel` itself and the full substep
`updateBiology` produce a dead (`health = 0`) tree with that cause, and the
PRNG state is returned unchanged — no random sample is consumed, so the
transition is independent of the RNG state. -/
theorem old_age_death (cfg : Config) (regen : ℕ → ℕ) (rendererWidth dt : ℝ)
    (e : Env) (t : TreeState) (rng : ℕ)
    (hen : t.mortality.enabled = true)
    (halive : 0 < t.health)
    (hage : t.mortality.maxAge ≤ t.age) :
    (applyMortalityModel cfg dt e t rng).1.health = 0 ∧
    (applyMortalityModel cfg dt e t rng).1.deathCause = some "Old age" ∧
    (applyMortalityModel cfg dt e t rng).2 = rng ∧
    (updateBiology cfg regen rendererWidth dt e t rng).2.1.health = 0 ∧
    (updateBiology cfg regen rendererWidth dt e t rng).2.1.deathCause = some "Old age" ∧
    (updateBiology cfg regen rendererWidth dt e t rng).2.2 = rng := by
  have hnot : ¬t.health ≤ 0 := not_le.mpr halive
  have hm : ∀ e' : Env, applyMortalityModel cfg dt e' t rng =
      ({ t with health := 0, deathCause := some "Old age" }, rng) := by
    intro e'
    unfold applyMortalityModel
    rw [if_neg hnot, if_neg (by simp [hen]), if_pos hage]
  have hb : updateBiology cfg regen rendererWidth dt e t rng =
      (updateEnvironmentTime dt e,
        { { t with health := 0, deathCause := some "Old age" } with
            leafDrops := updateLeafDropsFn dt (updateEnvironmentTime dt e).windSpeed
              ({ t with health := 0, deathCause := some "Old age" } : TreeState).leafDrops },
        rng) := by
    unfold updateBiology
    rw [if_neg hnot]
    simp only [hm, if_pos le_rfl]
  refine ⟨?_, ?_, ?_, ?_, ?_, ?_⟩ <;> simp [hm, hb]

/-- Witness for C2: a concrete enabled, alive tree at exactly its `maxAge`
dies of old age without consuming the RNG (state `99` is returned as-is). -/
theorem old_age_death_witness :
    ({ exampleTree with age := 600 } : TreeState).mortality.enabled = true ∧
    (0 : ℝ) < ({ exampleTree with age := 600 } : TreeState).health ∧
    ({ exampleTree with age := 600 } : TreeState).mortality.maxAge ≤
      ({ exampleTree with age := 600 } : TreeState).age ∧
    ((applyMortalityModel CONFIG 1 exampleEnv { exampleTree with age := 600 } 99).1.health = 0 ∧
      (applyMortalityModel CONFIG 1 exampleEnv { exampleTree with age := 600 } 99).1.deathCause =
        some "Old age" ∧
      (applyMortalityModel CONFIG 1 exampleEnv { exampleTree with age := 600 } 99).2 = 99 ∧
      (updateBiology CONFIG id 1920 1 exampleEnv { exampleTree with age := 600 } 99).2.1.health = 0 ∧
      (updateBiology CONFIG id 1920 1 exampleEnv { exampleTree with age := 600 } 99).2.1.deathCause =
        some "Old age" ∧
      (updateBiology CONFIG id 1920 1 exampleEnv { exampleTree with age := 600 } 99).2.2 = 99) :=
  ⟨rfl, by norm_num [exampleTree, initTree], by norm_num [exampleTree, initTree],
    old_age_death CONFIG id 1920 1 exampleEnv _ 99 rfl
      (by norm_num [exampleTree, initTree]) (by norm_num [exampleTree, initTree])⟩

/-! ### C6 — priority-ordered death-cause attribution -/

/-- C6: when the sampled per-substep death test succeeds (the drawn value is
below the Poisson-process probability for the clamped hazard), the recorded
death cause is `deathCauseChain`, a priority-ordered inspection of which risk
condition is active — windthrow first, then fire, then disease, then
senescence (age past `senescenceStartAge`), then the generic cause — and not
a comparison of hazard magnitudes: each conditional below fixes the cause
from the active conditions alone, for every hazard composition. -/
theorem death_cause_priority (cfg : Config) (dtDays : ℝ) (e : Env)
    (t : TreeState) (rng : ℕ)
    (hen : t.mortality.enabled = true)
    (halive : 0 < t.health)
    (hage : t.age < t.mortality.maxAge)
    (hdt : 0 < dtDays)
    (hdie : randVal rng < perStepDeathProb (hazardPerYear cfg e t) (dtDays / 365)) :
    (applyMortalityModel cfg dtDays e t rng).1.deathCause =
      some (deathCauseChain cfg e t) ∧
    (applyMortalityModel cfg dtDays e t rng).1.health = 0 ∧
    (applyMortalityModel cfg dtDays e t rng).2 = prngNext rng ∧
    (windthrowActive cfg e → deathCauseChain cfg e t = "Windthrow") ∧
    (¬windthrowActive cfg e → fireActive cfg e →
      deathCauseChain cfg e t = "Fire") ∧
    (¬windthrowActive cfg e → ¬fireActive cfg e → e.disease = true →
      deathCauseChain cfg e t = "Disease") ∧
    (¬windthrowActive cfg e → ¬fireActive cfg e → e.disease = false →
      t.mortality.senescenceStartAge < t.age →
      deathCauseChain cfg e t = "Old age") ∧
    (¬windthrowActive cfg e → ¬fireActive cfg e → e.disease = false →
      ¬t.mortality.senescenceStartAge < t.age →
      deathCauseChain cfg e t = "Mortality event") := by
  have happ : applyMortalityModel cfg dtDays e t rng =
      ({ t with health := 0, deathCause := some (deathCauseChain cfg e t) },
        prngNext rng) := by
    unfold applyMortalityModel
    rw [if_neg (not_le.mpr halive), if_neg (by simp [hen]),
      if_neg (not_le.mpr hage), if_neg (not_le.mpr (by positivity)), if_pos hdie]
  refine ⟨by rw [happ], by rw [happ], by rw [happ], ?_, ?_, ?_, ?_, ?_⟩
  · intro hw
    unfold deathCauseChain
    rw [if_pos hw]
  · intro hw hf
    unfold deathCauseChain
    rw [if_neg hw, if_pos hf]
  · intro hw hf hd
    unfold deathCauseChain
    rw [if_neg hw, if_neg hf, if_pos hd]
  · intro hw hf hd hs
    unfold deathCauseChain
    rw [if_neg hw, if_neg hf, if_neg (by simp [hd]), if_pos hs]
  · intro hw hf hd hs
    unfold deathCauseChain
    rw [if_neg hw, if_neg hf, if_neg (by simp [hd]), if_neg hs]

/-- Witness for C6: a concrete alive, enabled tree below its maximum age in
an environment with the disease stressor active (no storm, no fire
conditions with the shipped config).  Drawing from RNG state `634785765`
yields the sample `0`, strictly below the positive death probability, and the
recorded cause is `"Disease"`. -/
theorem death_cause_priority_witness :
    exampleTree.mortality.enabled = true ∧
    (0 : ℝ) < exampleTree.health ∧
    exampleTree.age < exampleTree.mortality.maxAge ∧
    (0 : ℝ) < 1 ∧
    randVal 634785765 <
      perStepDeathProb (hazardPerYear CONFIG exampleEnv exampleTree) (1 / 365) ∧
    (applyMortalityModel CONFIG 1 exampleEnv exampleTree 634785765).1.deathCause =
      some (deathCauseChain CONFIG exampleEnv exampleTree) ∧
    deathCauseChain CONFIG exampleEnv exampleTree = "Disease" := by
  have h0 : randVal 634785765 = 0 := by
    have : prngNext 634785765 = 0 := by decide
    rw [randVal, this]
    norm_num
  have hhaz : (0 : ℝ) < hazardPerYear CONFIG exampleEnv exampleTree := by
    unfold hazardPerYear clampR
    norm_num [exampleEnv, exampleTree, initTree, defaultEnv, fireActive,
      windthrowActive, jsLtOpt, jsGtOpt, CONFIG]
  have hdie : randVal 634785765 <
      perStepDeathProb (hazardPerYear CONFIG exampleEnv exampleTree) (1 / 365) := by
    rw [h0]
    unfold perStepDeathProb
    have : Real.exp (-(hazardPerYear CONFIG exampleEnv exampleTree * (1 / 365))) < 1 :=
      Real.exp_lt_one_iff.mpr (by nlinarith)
    linarith
  have hen : exampleTree.mortality.enabled = true := rfl
  have halive : (0 : ℝ) < exampleTree.health := by norm_num [exampleTree, initTree]
  have hage : exampleTree.age < exampleTree.mortality.maxAge := by
    norm_num [exampleTree, initTree]
  have hchain : deathCauseChain CONFIG exampleEnv exampleTree = "Disease" :=
    (death_cause_priority CONFIG 1 exampleEnv exampleTree 634785765 hen halive hage
      one_pos hdie).2.2.2.2.2.1
      (by simp [windthrowActive, jsGtOpt, CONFIG])
      (by simp [fireActive, jsLtOpt, CONFIG]) rfl
  exact ⟨hen, halive, hage, one_pos, hdie,
    (death_cause_priority CONFIG 1 exampleEnv exampleTree 634785765 hen halive hage
      one_pos hdie).1, hchain⟩

/-! ### C4 — biomass total equals the sum of compartments -/

theorem applyMortalityModel_biomass (cfg : Config) (dt : ℝ) (e : Env)
    (t : TreeState) (rng : ℕ) :
    (applyMortalityModel cfg dt e t rng).1.biomass = t.biomass := by
  unfold applyMortalityModel
  split_ifs <;> first
  | rfl
  | · dsimp only
      split_ifs <;> rfl

theorem updateBiomass_total (season : Season) (health fo age dt gf : ℝ)
    (b : Biomass)
    (h : b.total = b.trunk + b.branches + b.leaves + b.roots) :
    (updateBiomass season health fo age dt gf b).total =
      (updateBiomass season health fo age dt gf b).trunk +
        (updateBiomass season health fo age dt gf b).branches +
        (updateBiomass season health fo age dt gf b).leaves +
        (updateBiomass season health fo age dt gf b).roots := by
  unfold updateBiomass
  split_ifs <;> simp_all

/-- C4: if the biomass total equals the sum of the four primary compartments
before a substep, it does after every per-substep update — both through
`updateBiomass` directly (for all inputs, in particular substeps whose net
growth factor is zero or negative, where the early return leaves the
compartments untouched) and through the full `updateBiology` substep. -/
theorem biomass_total_invariant (cfg : Config) (regen : ℕ → ℕ)
    (rendererWidth dt : ℝ) (e : Env) (t : TreeState) (rng : ℕ)
    (h : t.biomass.total =
      t.biomass.trunk + t.biomass.branches + t.biomass.leaves + t.biomass.roots) :
    (∀ (season : Season) (health fo age gf : ℝ),
      (updateBiomass season health fo age dt gf t.biomass).total =
        (updateBiomass season health fo age dt gf t.biomass).trunk +
          (updateBiomass season health fo age dt gf t.biomass).branches +
          (updateBiomass season health fo age dt gf t.biomass).leaves +
          (updateBiomass season health fo age dt gf t.biomass).roots) ∧
    (updateBiology cfg regen rendererWidth dt e t rng).2.1.biomass.total =
      (updateBiology cfg regen rendererWidth dt e t rng).2.1.biomass.trunk +
        (updateBiology cfg regen rendererWidth dt e t rng).2.1.biomass.branches +
        (updateBiology cfg regen rendererWidth dt e t rng).2.1.biomass.leaves +
        (updateBiology cfg regen rendererWidth dt e t rng).2.1.biomass.roots := by
  refine ⟨fun season health fo age gf => updateBiomass_total season health fo age dt gf
    t.biomass h, ?_⟩
  unfold updateBiology
  by_cases h1 : t.health ≤ 0
  · rw [if_pos h1]
    exact h
  · rw [if_neg h1]
    have hbm := applyMortalityModel_biomass cfg dt (updateEnvironmentTime dt e) t rng
    by_cases h2 :
      (applyMortalityModel cfg dt (updateEnvironmentTime dt e) t rng).1.health ≤ 0
    · rw [if_pos h2]
      simpa [hbm] using h
    · rw [if_neg h2]
      simp only [hbm]
      exact updateBiomass_total _ _ _ _ _ _ _ h

/-- Witness for C4: the sapling's biomass satisfies the invariant
(`0.5 = 0.3 + 0.1 + 0.05 + 0.05`) and it is preserved by a full substep. -/
theorem biomass_total_invariant_witness :
    (initTree 80).biomass.total =
      (initTree 80).biomass.trunk + (initTree 80).biomass.branches +
        (initTree 80).biomass.leaves + (initTree 80).biomass.roots ∧
    (updateBiology CONFIG id 1920 (1 / 60) defaultEnv (initTree 80) 7).2.1.biomass.total =
      (updateBiology CONFIG id 1920 (1 / 60) defaultEnv (initTree 80) 7).2.1.biomass.trunk +
        (updateBiology CONFIG id 1920 (1 / 60) defaultEnv (initTree 80) 7).2.1.biomass.branches +
        (updateBiology CONFIG id 1920 (1 / 60) defaultEnv (initTree 80) 7).2.1.biomass.leaves +
        (updateBiology CONFIG id 1920 (1 / 60) defaultEnv (initTree 80) 7).2.1.biomass.roots :=
  ⟨by norm_num [initTree],
    (biomass_total_invariant CONFIG id 1920 (1 / 60) defaultEnv (initTree 80) 7
      (by norm_num [initTree])).2⟩

/-! ### C3 — vitality fields stay in [0, 100] -/

/-- The clamp invariant of the spec: health, vigor, stress, disease load,
chlorophyll and water content all lie in `[0, 100]`. -/
def vitalsInRange (t : TreeState) : Prop :=
  t.health ∈ Set.Icc (0 : ℝ) 100 ∧ t.vigor ∈ Set.Icc (0 : ℝ) 100 ∧
    t.stressLevel ∈ Set.Icc (0 : ℝ) 100 ∧ t.diseaseLoad ∈ Set.Icc (0 : ℝ) 100 ∧
    t.chlorophyllContent ∈ Set.Icc (0 : ℝ) 100 ∧
    t.waterContent ∈ Set.Icc (0 : ℝ) 100

theorem applyMortalityModel_vitals (cfg : Config) (dt : ℝ) (e : Env)
    (t : TreeState) (rng : ℕ) (h : vitalsInRange t) :
    vitalsInRange (applyMortalityModel cfg dt e t rng).1 := by
  obtain ⟨hh, hv, hs, hd, hc, hw⟩ := h
  have hz : (0 : ℝ) ∈ Set.Icc (0 : ℝ) 100 := by constructor <;> norm_num
  unfold applyMortalityModel
  split_ifs <;> first
  | exact ⟨hh, hv, hs, hd, hc, hw⟩
  | exact ⟨hz, hv, hs, hd, hc, hw⟩
  | · dsimp only
      split_ifs
      · exact ⟨hz, hv, hs, hd, hc, hw⟩
      · exact ⟨hh, hv, hs, hd, hc, hw⟩

theorem diseaseLoad_update_mem (c : Prop) [Decidable c] (dl health dt : ℝ)
    (hdl : dl ∈ Set.Icc (0 : ℝ) 100) (hh : health ≤ 100) (hdt : 0 ≤ dt) :
    (if c then min 100 (dl + dt * 2 * (100 - health) / 100)
      else max 0 (dl - dt * 0.5)) ∈ Set.Icc (0 : ℝ) 100 := by
  obtain ⟨h0, h100⟩ := hdl
  split_ifs
  · refine ⟨le_min (by norm_num) ?_, min_le_left _ _⟩
    have : 0 ≤ dt * 2 * (100 - health) / 100 :=
      div_nonneg (mul_nonneg (mul_nonneg hdt (by norm_num)) (by linarith)) (by norm_num)
    linarith
  · exact ⟨le_max_left _ _, max_le (by norm_num) (by linarith)⟩

theorem chlorophyll_update_mem (ev : Bool) (c₁ c₂ c₃ c₄ : Prop)
    [Decidable c₁] [Decidable c₂] [Decidable c₃] [Decidable c₄]
    (chl dt p : ℝ) (hchl : chl ∈ Set.Icc (0 : ℝ) 100) (hdt : 0 ≤ dt)
    (hp0 : 0 ≤ p) (hp1 : p < 1) :
    (if ev = true then
      if c₁ then max 50 (chl - dt * 0.5) else min 100 (chl + dt * 2)
    else if c₂ then max 0 (100 * (1 - p))
    else if c₃ then min 100 (p * 100)
    else if c₄ then 0
    else min 100 (chl + dt * 2)) ∈ Set.Icc (0 : ℝ) 100 := by
  obtain ⟨h0, h100⟩ := hchl
  split_ifs
  · exact ⟨le_trans (by norm_num) (le_max_left _ _),
      max_le (by norm_num) (by linarith)⟩
  · exact ⟨le_min (by norm_num) (by linarith), min_le_left _ _⟩
  · exact ⟨le_max_left _ _, max_le (by norm_num) (by nlinarith)⟩
  · exact ⟨le_min (by norm_num) (mul_nonneg hp0 (by norm_num)), min_le_left _ _⟩
  · constructor <;> norm_num
  · exact ⟨le_min (by norm_num) (by linarith), min_le_left _ _⟩

/-- One substep keeps the six vitality fields in `[0, 100]`. -/
theorem updateBiology_vitals (cfg : Config) (regen : ℕ → ℕ)
    (rendererWidth dt : ℝ) (e : Env) (t : TreeState) (rng : ℕ)
    (hdt : 0 ≤ dt) (h : vitalsInRange t) :
    vitalsInRange (updateBiology cfg regen rendererWidth dt e t rng).2.1 := by
  unfold updateBiology
  by_cases h1 : t.health ≤ 0
  · rw [if_pos h1]
    exact h
  · rw [if_neg h1]
    have hm := applyMortalityModel_vitals cfg dt (updateEnvironmentTime dt e) t rng h
    by_cases h2 :
      (applyMortalityModel cfg dt (updateEnvironmentTime dt e) t rng).1.health ≤ 0
    · rw [if_pos h2]
      exact hm
    · rw [if_neg h2]
      obtain ⟨hmh, hmv, hms, hmd, hmc, hmw⟩ := hm
      refine ⟨clampR_mem_Icc _ _ _ (by norm_num), clampR_mem_Icc _ _ _ (by norm_num),
        clampR_mem_Icc _ _ _ (by norm_num), ?_, ?_, clampR_mem_Icc _ _ _ (by norm_num)⟩
      · exact diseaseLoad_update_mem _ _ _ _ hmd (clampR_le _ _ _) hdt
      · exact chlorophyll_update_mem _ _ _ _ _ _ _ _ hmc hdt
          (getSeasonProgress_nonneg _) (getSeasonProgress_lt_one _)

/-- C3: for every environment-input sequence and every number of substeps,
if the six vitality fields start in `[0, 100]` and the substep length is
nonnegative, they lie in `[0, 100]` after every substep of the run. -/
theorem vitals_clamp_invariant (cfg : Config) (regen : ℕ → ℕ)
    (rendererWidth dt : ℝ) (us : ℕ → UIInput) (e0 : Env) (t0 : TreeState)
    (seed : ℕ) (hdt : 0 ≤ dt) (h0 : vitalsInRange t0) :
    ∀ n : ℕ,
      vitalsInRange (stateAfter cfg regen rendererWidth dt us e0 t0 seed n).tree := by
  intro n
  induction n with
  | zero => exact h0
  | succ k ih =>
    show vitalsInRange (substep cfg regen rendererWidth dt (us k)
      (stateAfter cfg regen rendererWidth dt us e0 t0 seed k)).tree
    unfold substep
    exact updateBiology_vitals cfg regen rendererWidth dt _ _ _ hdt ih

/-- Witness for C3: the sapling starts with all six fields in range, and
after five substeps of a concrete run they are still in range. -/
theorem vitals_clamp_invariant_witness :
    (0 : ℝ) ≤ 1 / 60 ∧ vitalsInRange (initTree 80) ∧
    vitalsInRange (stateAfter CONFIG id 1920 (1 / 60) (fun _ => defaultUI)
      defaultEnv (initTree 80) 12345 5).tree := by
  have h0 : vitalsInRange (initTree 80) := by
    refine ⟨?_, ?_, ?_, ?_, ?_, ?_⟩ <;> constructor <;> norm_num [initTree]
  exact ⟨by norm_num, h0,
    vitals_clamp_invariant CONFIG id 1920 (1 / 60) (fun _ => defaultUI) defaultEnv
      (initTree 80) 12345 (by norm_num) h0 5⟩

/-! ### C7 — fixed-timestep scheduler accumulator -/

theorem schedLoop_spec {α : Type} (dt : ℝ) (hdt : 0 < dt) (f : α → α) :
    ∀ (fuel : ℕ) (acc : ℝ), 0 ≤ acc → ∀ a : α,
      schedLoop dt f fuel acc a =
        (min fuel ⌊acc / dt⌋₊, acc - (min fuel ⌊acc / dt⌋₊ : ℕ) * dt,
          f^[min fuel ⌊acc / dt⌋₊] a) := by
  intro fuel
  induction fuel with
  | zero => intro acc hacc a; simp [schedLoop]
  | succ n ih =>
    intro acc hacc a
    unfold schedLoop
    split_ifs with hge
    · have hacc' : 0 ≤ acc - dt := by linarith
      have hone : 1 ≤ ⌊acc / dt⌋₊ := by
        rw [Nat.le_floor_iff (by positivity)]
        rw [le_div_iff hdt]
        simpa using hge
      have hfl : ⌊(acc - dt) / dt⌋₊ = ⌊acc / dt⌋₊ - 1 := by
        have h1 : (acc - dt) / dt = acc / dt - 1 := by field_simp
        rw [h1, Nat.floor_sub_one]
      rw [ih (acc - dt) hacc' (f a)]
      have hmin : min (n + 1) ⌊acc / dt⌋₊ = min n ⌊(acc - dt) / dt⌋₊ + 1 := by
        rw [hfl]
        omega
      refine Prod.ext ?_ (Prod.ext ?_ ?_)
      · simpa using hmin.symm
      · show acc - dt - (min n ⌊(acc - dt) / dt⌋₊ : ℕ) * dt =
          acc - (min (n + 1) ⌊acc / dt⌋₊ : ℕ) * dt
        rw [hmin]
        push_cast
        ring
      · show f^[min n ⌊(acc - dt) / dt⌋₊] (f a) = f^[min (n + 1) ⌊acc / dt⌋₊] a
        rw [hmin, ← Function.iterate_succ_apply]
    · have hfl : ⌊acc / dt⌋₊ = 0 := by
        rw [Nat.floor_eq_zero, div_lt_one hdt]
        linarith
      simp [hfl]


theorem schedulerRun_spec {α : Type} (dt : ℝ) (hdt : 0 < dt) (f : α → α) :
    ∀ (ds : List ℝ), (∀ d ∈ ds, 0 ≤ d) → ∀ (acc : ℝ), 0 ≤ acc → ∀ a : α,
      0 ≤ (schedulerRun dt f ds acc a).2.1 ∧
      (schedulerRun dt f ds acc a).2.1 =
        acc + ds.sum - (schedulerRun dt f ds acc a).1 * dt ∧
      (schedulerRun dt f ds acc a).2.2 = f^[(schedulerRun dt f ds acc a).1] a ∧
      (schedulerRun dt f ds acc a).1 + ⌊(schedulerRun dt f ds acc a).2.1 / dt⌋₊ =
        ⌊(acc + ds.sum) / dt⌋₊ := by
  intro ds
  induction ds with
  | nil =>
    intro _ acc hacc a
    refine ⟨hacc, by simp [schedulerRun], by simp [schedulerRun], by simp [schedulerRun]⟩
  | cons d ds ih =>
    intro hds acc hacc a
    have hd : 0 ≤ d := hds d (List.mem_cons_self d ds)
    have hds' : ∀ x ∈ ds, 0 ≤ x := fun x hx => hds x (List.mem_cons_of_mem d hx)
    have hsum' : 0 ≤ ds.sum := List.sum_nonneg hds'
    have haccd : 0 ≤ acc + d := by linarith
    have hcall : schedulerCall dt f d acc a =
        (min 10 ⌊(acc + d) / dt⌋₊,
          acc + d - (min 10 ⌊(acc + d) / dt⌋₊ : ℕ) * dt,
          f^[min 10 ⌊(acc + d) / dt⌋₊] a) :=
      schedLoop_spec dt hdt f 10 (acc + d) haccd a
    have hA₁ : 0 ≤ acc + d - ((min 10 ⌊(acc + d) / dt⌋₊ : ℕ) : ℝ) * dt := by
      have h1 : ((min 10 ⌊(acc + d) / dt⌋₊ : ℕ) : ℝ) ≤ ⌊(acc + d) / dt⌋₊ := by
        exact_mod_cast min_le_right _ _
      have h2 : (⌊(acc + d) / dt⌋₊ : ℝ) ≤ (acc + d) / dt :=
        Nat.floor_le (by positivity)
      have h3 : ((min 10 ⌊(acc + d) / dt⌋₊ : ℕ) : ℝ) * dt ≤ (acc + d) / dt * dt :=
        mul_le_mul_of_nonneg_right (le_trans h1 h2) hdt.le
      rw [div_mul_cancel₀ _ hdt.ne'] at h3
      linarith
    have hrun : schedulerRun dt f (d :: ds) acc a =
        ((schedulerCall dt f d acc a).1 +
            (schedulerRun dt f ds (schedulerCall dt f d acc a).2.1
              (schedulerCall dt f d acc a).2.2).1,
          (schedulerRun dt f ds (schedulerCall dt f d acc a).2.1
            (schedulerCall dt f d acc a).2.2).2.1,
          (schedulerRun dt f ds (schedulerCall dt f d acc a).2.1
            (schedulerCall dt f d acc a).2.2).2.2) := rfl
    rw [hrun, hcall]
    dsimp only
    set n₁ : ℕ := min 10 ⌊(acc + d) / dt⌋₊ with hn₁
    obtain ⟨ihA, ihEq, ihIt, ihFl⟩ :=
      ih hds' (acc + d - (n₁ : ℝ) * dt) hA₁ (f^[n₁] a)
    set R := schedulerRun dt f ds (acc + d - (n₁ : ℝ) * dt) (f^[n₁] a) with hRdef
    refine ⟨ihA, ?_, ?_, ?_⟩
    · rw [ihEq]
      simp only [List.sum_cons]
      push_cast
      ring
    · rw [ihIt, ← Function.iterate_add_apply, Nat.add_comm]
    · simp only [List.sum_cons]
      have hstep : ⌊(acc + d - (n₁ : ℝ) * dt + ds.sum) / dt⌋₊ =
          ⌊(acc + (d + ds.sum)) / dt⌋₊ - n₁ := by
        have h1 : (acc + d - (n₁ : ℝ) * dt + ds.sum) / dt =
            (acc + (d + ds.sum)) / dt - (n₁ : ℕ) := by
          field_simp
          ring
        rw [h1, Nat.floor_sub_nat]
      have hle : n₁ ≤ ⌊(acc + (d + ds.sum)) / dt⌋₊ := by
        refine le_trans (min_le_right _ _) (Nat.floor_le_floor ?_)
        gcongr
        linarith
      rw [hstep] at ihFl
      omega

theorem schedulerRun_nocap {α : Type} (dt : ℝ) (hdt : 0 < dt) (f : α → α) :
    ∀ (ds : List ℝ), (∀ d ∈ ds, 0 ≤ d) → (∀ d ∈ ds, d ≤ 9 * dt) →
      ∀ (acc : ℝ), 0 ≤ acc → acc < dt → ∀ a : α,
        (schedulerRun dt f ds acc a).2.1 < dt := by
  intro ds
  induction ds with
  | nil => intro _ _ acc _ hlt a; simpa [schedulerRun] using hlt
  | cons d ds ih =>
    intro hds hds9 acc hacc hlt a
    have hd : 0 ≤ d := hds d (List.mem_cons_self d ds)
    have hd9 : d ≤ 9 * dt := hds9 d (List.mem_cons_self d ds)
    have haccd : 0 ≤ acc + d := by linarith
    have hcall : schedulerCall dt f d acc a =
        (min 10 ⌊(acc + d) / dt⌋₊,
          acc + d - (min 10 ⌊(acc + d) / dt⌋₊ : ℕ) * dt,
          f^[min 10 ⌊(acc + d) / dt⌋₊] a) :=
      schedLoop_spec dt hdt f 10 (acc + d) haccd a
    have hsmall : ⌊(acc + d) / dt⌋₊ ≤ 9 := by
      have h1 : (acc + d) / dt < 10 := by
        rw [div_lt_iff hdt]
        linarith
      have h2 : ⌊(acc + d) / dt⌋₊ < 10 := by
        rw [Nat.floor_lt (by positivity)]
        exact_mod_cast h1
      omega
    have hmin : min 10 ⌊(acc + d) / dt⌋₊ = ⌊(acc + d) / dt⌋₊ := by omega
    have hA₁ : acc + d - (⌊(acc + d) / dt⌋₊ : ℝ) * dt < dt := by
      have h1 : (acc + d) / dt < ⌊(acc + d) / dt⌋₊ + 1 := Nat.lt_floor_add_one _
      have h2 : acc + d < ((⌊(acc + d) / dt⌋₊ : ℝ) + 1) * dt := (div_lt_iff hdt).mp h1
      nlinarith
    have hA₀ : 0 ≤ acc + d - (⌊(acc + d) / dt⌋₊ : ℝ) * dt := by
      have h2 : (⌊(acc + d) / dt⌋₊ : ℝ) ≤ (acc + d) / dt :=
        Nat.floor_le (by positivity)
      have h3 : (⌊(acc + d) / dt⌋₊ : ℝ) * dt ≤ (acc + d) / dt * dt :=
        mul_le_mul_of_nonneg_right h2 hdt.le
      rw [div_mul_cancel₀ _ hdt.ne'] at h3
      linarith
    have hrun : (schedulerRun dt f (d :: ds) acc a).2.1 =
        (schedulerRun dt f ds (schedulerCall dt f d acc a).2.1
          (schedulerCall dt f d acc a).2.2).2.1 := rfl
    rw [hrun, hcall]
    dsimp only
    rw [hmin]
    exact ih (fun x hx => hds x (List.mem_cons_of_mem d hx))
      (fun x hx => hds9 x (List.mem_cons_of_mem d hx)) _ hA₀ hA₁ _

/-- C7: for every substep size `dt > 0`, draining a total elapsed time
through the scheduler executes the same number of substeps regardless of how
the total is partitioned across `animationLoop` calls (the `maxSubsteps = 10`
cap only defers pending whole substeps, which stay in the accumulator and
are counted by `drainedSubsteps`); each executed substep applies the step
function at exactly the fixed substep size (the final state is `f^[N]` of the
initial one), leftover time is carried in the accumulator
(`acc = T − N·dt ≥ 0`); and when no call delivers more than the cap can
drain (every frame delta at most `9·dt`), the executed count itself is
exactly `⌊T/dt⌋` with a sub-`dt` leftover. -/
theorem scheduler_accumulator_spec {α : Type} (dt : ℝ) (f : α → α) (a : α)
    (hdt : 0 < dt) :
    (∀ ds₁ ds₂ : List ℝ, (∀ d ∈ ds₁, 0 ≤ d) → (∀ d ∈ ds₂, 0 ≤ d) →
      ds₁.sum = ds₂.sum →
      drainedSubsteps dt f ds₁ 0 a = drainedSubsteps dt f ds₂ 0 a) ∧
    (∀ ds : List ℝ, (∀ d ∈ ds, 0 ≤ d) →
      drainedSubsteps dt f ds 0 a = ⌊ds.sum / dt⌋₊ ∧
      (schedulerRun dt f ds 0 a).2.1 =
        ds.sum - (schedulerRun dt f ds 0 a).1 * dt ∧
      0 ≤ (schedulerRun dt f ds 0 a).2.1 ∧
      (schedulerRun dt f ds 0 a).2.2 = f^[(schedulerRun dt f ds 0 a).1] a) ∧
    (∀ ds : List ℝ, (∀ d ∈ ds, 0 ≤ d) → (∀ d ∈ ds, d ≤ 9 * dt) →
      (schedulerRun dt f ds 0 a).2.1 < dt ∧
      (schedulerRun dt f ds 0 a).1 = ⌊ds.sum / dt⌋₊) := by
  have main : ∀ ds : List ℝ, (∀ d ∈ ds, 0 ≤ d) →
      drainedSubsteps dt f ds 0 a = ⌊ds.sum / dt⌋₊ ∧
      (schedulerRun dt f ds 0 a).2.1 =
        ds.sum - (schedulerRun dt f ds 0 a).1 * dt ∧
      0 ≤ (schedulerRun dt f ds 0 a).2.1 ∧
      (schedulerRun dt f ds 0 a).2.2 = f^[(schedulerRun dt f ds 0 a).1] a := by
    intro ds hds
    obtain ⟨hA, hEq, hIt, hFl⟩ := schedulerRun_spec dt hdt f ds hds 0 le_rfl a
    refine ⟨?_, by simpa using hEq, hA, hIt⟩
    unfold drainedSubsteps
    rw [hFl]
    norm_num
  refine ⟨?_, main, ?_⟩
  · intro ds₁ ds₂ h₁ h₂ hsum
    rw [(main ds₁ h₁).1, (main ds₂ h₂).1, hsum]
  · intro ds hds hds9
    have hlt := schedulerRun_nocap dt hdt f ds hds hds9 0 le_rfl (by linarith) a
    refine ⟨hlt, ?_⟩
    obtain ⟨hdr, _, hA, _⟩ := main ds hds
    have hz : ⌊(schedulerRun dt f ds 0 a).2.1 / dt⌋₊ = 0 := by
      rw [Nat.floor_eq_zero, div_lt_one hdt]
      exact hlt
    have hdr' : (schedulerRun dt f ds 0 a).1 +
        ⌊(schedulerRun dt f ds 0 a).2.1 / dt⌋₊ = ⌊ds.sum / dt⌋₊ := hdr
    omega

/-- Witness for C7: with the fixed substep `1/60` s, delivering `1/30` s in
one call or in two calls of `1/60` s drains the same number of substeps. -/
theorem scheduler_accumulator_spec_witness :
    (0 : ℝ) < 1 / 60 ∧
    ((1 / 30 : ℝ) :: []).sum = ((1 / 60 : ℝ) :: (1 / 60 : ℝ) :: []).sum ∧
    drainedSubsteps (1 / 60) Nat.succ ((1 / 30 : ℝ) :: []) 0 0 =
      drainedSubsteps (1 / 60) Nat.succ ((1 / 60 : ℝ) :: (1 / 60 : ℝ) :: []) 0 0 := by
  have hsum : ((1 / 30 : ℝ) :: []).sum = ((1 / 60 : ℝ) :: (1 / 60 : ℝ) :: []).sum := by
    simp only [List.sum_cons, List.sum_nil]
    norm_num
  refine ⟨by norm_num, hsum, ?_⟩
  refine (scheduler_accumulator_spec (1 / 60) Nat.succ 0 (by norm_num)).1 _ _ ?_ ?_ hsum
  · intro d hd
    simp only [List.mem_cons, List.not_mem_nil, or_false] at hd
    rw [hd]
    norm_num
  · intro d hd
    simp only [List.mem_cons, List.not_mem_nil, or_false] at hd
    rcases hd with h | h <;> rw [h] <;> norm_num
